import Mathlib

/-!
# PracticeProjectCharacter: grapple and camera state

A shallow embedding of `APracticeProjectCharacter`
(`PracticeProject/Source/PracticeProject/PracticeProjectCharacter.cpp` and `.h`).

* Engine doubles are modelled by exact rationals.
* The character is a record of the fields the class reads and writes; component
  pointers become nested records.
* Values the engine owns and the class only reads (actor location, velocity, camera
  pose, the collision world, the reciprocal square root) are gathered in `World`,
  a snapshot handed to each call.
* Engine calls with an effect outside the record (`AddForce`, `BindAction`, the sphere
  trace, `UE_LOG`, ...) are appended to the call log `calls`, oldest first.
-/

namespace PracticeProject

/-! ## Engine vector arithmetic -/

/-- Engine `FVector`: three coordinates. -/
structure FVector where
  X : ℚ
  Y : ℚ
  Z : ℚ
  deriving DecidableEq

namespace FVector

/-- Engine constant `FVector::ZeroVector`. -/
def ZeroVector : FVector := ⟨0, 0, 0⟩

/-- Engine `FVector::operator+`. -/
def add (a b : FVector) : FVector := ⟨a.X + b.X, a.Y + b.Y, a.Z + b.Z⟩

/-- Engine `FVector::operator-`. -/
def sub (a b : FVector) : FVector := ⟨a.X - b.X, a.Y - b.Y, a.Z - b.Z⟩

/-- Engine `FVector::operator*(Scale)`. -/
def scale (a : FVector) (k : ℚ) : FVector := ⟨a.X * k, a.Y * k, a.Z * k⟩

/-- Engine `FVector::DotProduct`. -/
def DotProduct (a b : FVector) : ℚ := a.X * b.X + a.Y * b.Y + a.Z * b.Z

/-- Engine `FVector::SizeSquared`. -/
def SizeSquared (a : FVector) : ℚ := a.X * a.X + a.Y * a.Y + a.Z * a.Z

end FVector

/-- Engine constant `SMALL_NUMBER` (1e-8), the default tolerance of `GetSafeNormal`. -/
def SMALL_NUMBER : ℚ := 1 / 100000000

/-- Engine `FVector::GetSafeNormal()` with its default arguments: a vector of squared
length one is returned as is, one of squared length below the tolerance becomes the zero
vector, any other is scaled by `InvSqrt` of its squared length. The reciprocal square
root is the engine primitive `FMath::InvSqrt`, taken as a parameter. -/
def FVector.GetSafeNormal (InvSqrt : ℚ → ℚ) (v : FVector) : FVector :=
  let SquareSum := v.X * v.X + v.Y * v.Y + v.Z * v.Z
  if SquareSum = 1 then v
  else if SquareSum < SMALL_NUMBER then FVector.ZeroVector
  else
    let Scale := InvSqrt SquareSum
    ⟨v.X * Scale, v.Y * Scale, v.Z * Scale⟩

/-- Engine `UKismetMathLibrary::FClamp(Value, Min, Max)`, which is
`FMath::Clamp`, that is `Max(Min(Value, Max), Min)`. -/
def FClamp (Value Min Max : ℚ) : ℚ := max (min Value Max) Min

/-! ## Components and the character record -/

/-- The fields of a `UCameraComponent` the character touches. -/
structure UCameraComponent where
  bAutoActivate : Bool
  bIsActive : Bool
  bUsePawnControlRotation : Bool
  deriving DecidableEq

/-- Engine `UActorComponent::SetActive(bNewActive)`: activates or deactivates the
component, leaving its active flag equal to the argument. -/
def UCameraComponent.SetActive (c : UCameraComponent) (bNewActive : Bool) :
    UCameraComponent :=
  { c with bIsActive := bNewActive }

/-- The fields of the `UCableComponent` the character touches. -/
structure UCableComponent where
  bHiddenInGame : Bool
  EndLocation : FVector
  deriving DecidableEq

/-- Engine `USceneComponent::SetHiddenInGame(NewHidden)`. -/
def UCableComponent.SetHiddenInGame (c : UCableComponent) (NewHidden : Bool) :
    UCableComponent :=
  { c with bHiddenInGame := NewHidden }

/-- Engine enumeration `EMovementMode`. -/
inductive EMovementMode where
  | MOVE_None
  | MOVE_Walking
  | MOVE_NavWalking
  | MOVE_Falling
  | MOVE_Swimming
  | MOVE_Flying
  | MOVE_Custom
  deriving DecidableEq

/-- The input actions declared in the header. -/
inductive InputAction where
  | JumpAction
  | MoveAction
  | LookAction
  | CrouchAction
  | GrappleAction
  | CameraToggleAction
  deriving DecidableEq

/-- Engine enumeration `ETriggerEvent`, the members used here. -/
inductive ETriggerEvent where
  | Started
  | Triggered
  | Completed
  deriving DecidableEq

/-- The member functions `SetupPlayerInputComponent` binds actions to. -/
inductive Handler where
  | Jump
  | StopJumping
  | Move
  | Look
  | SwitchCamera
  | Crouch
  | UnCrouch
  | CheckGrapple
  deriving DecidableEq

/-- One entry of the call log: an engine call made by the character, or the entry of
`UpdateGrapple`. -/
inductive Call where
  | AddMappingContext
  | BindAction (Action : InputAction) (TriggerEvent : ETriggerEvent) (Func : Handler)
  | LogError
  | UpdateGrapple
  | AddForce (Force : FVector)
  | SphereTraceSingleForObjects (Start End : FVector)
  deriving DecidableEq

/-- Whether a log entry is a `BindAction` call. -/
def Call.isBindAction : Call → Bool
  | .BindAction _ _ _ => true
  | _ => false

/-- The state of an `APracticeProjectCharacter`. -/
structure Character where
  bUseControllerRotationPitch : Bool
  bUseControllerRotationYaw : Bool
  bUseControllerRotationRoll : Bool
  ThirdPersonCamera : UCameraComponent
  FirstPersonCamera : UCameraComponent
  GrappleCable : UCableComponent
  fGrappleDistance : ℚ
  magnitudeClamp : ℚ
  bThirdPersonCameraEnabled : Bool
  bGrappleAttached : Bool
  vGrappleLocation : FVector
  MovementMode : EMovementMode
  calls : List Call
  deriving DecidableEq

/-- What the engine reports to the character during one call. -/
structure World where
  ActorLocation : FVector
  InverseTransformPosition : FVector → FVector
  Velocity : FVector
  CameraLocation : FVector
  CameraForward : FVector
  SphereTraceSingleForObjects : FVector → FVector → Bool × FVector
  InvSqrt : ℚ → ℚ

/-- The controller possessing the character, as `SetupPlayerInputComponent` sees it:
none, one that is not a player controller, or a player controller whose local player
has or lacks the enhanced input subsystem. -/
inductive Controller where
  | none
  | other
  | player (hasSubsystem : Bool)
  deriving DecidableEq

/-- The input component passed to `SetupPlayerInputComponent`. -/
inductive UInputComponent where
  | null
  | legacy
  | enhanced
  deriving DecidableEq

/-! ## Member functions -/

/-- The constructor, followed by the engine's component initialisation. `raw` is the
object before the constructor body runs; fields the constructor and the header
initialisers do not assign (`vGrappleLocation`, `magnitudeClamp`, the cable end, the
movement mode) keep their value. A camera created by `CreateDefaultSubobject` has the
engine default `bAutoActivate = true` and, once initialised, is active exactly when
`bAutoActivate` is set. -/
def APracticeProjectCharacter (raw : Character) : Character :=
  { raw with
    bUseControllerRotationPitch := false
    bUseControllerRotationYaw := false
    bUseControllerRotationRoll := false
    ThirdPersonCamera :=
      { bUsePawnControlRotation := false, bAutoActivate := false, bIsActive := false }
    FirstPersonCamera :=
      { bUsePawnControlRotation := true, bAutoActivate := true, bIsActive := true }
    GrappleCable := raw.GrappleCable.SetHiddenInGame true
    fGrappleDistance := 10000
    bThirdPersonCameraEnabled := false
    bGrappleAttached := false
    calls := [] }

/-- The scalar `magnitude` of `UpdateGrapple` after the `FClamp` step. -/
def UpdateGrapple.magnitude (w : World) (s : Character) : ℚ :=
  let direction := FVector.sub w.ActorLocation s.vGrappleLocation
  let velocity := w.Velocity
  let magnitude := FVector.DotProduct direction velocity
  FClamp magnitude (-s.magnitudeClamp) magnitude

/-- The vector `force` of `UpdateGrapple`. -/
def UpdateGrapple.force (w : World) (s : Character) : FVector :=
  let direction := FVector.sub w.ActorLocation s.vGrappleLocation
  let magnitude := UpdateGrapple.magnitude w s
  if magnitude > 1 / 2 ∨ magnitude < -(1 / 2) then
    (direction.GetSafeNormal w.InvSqrt).scale magnitude
  else direction.GetSafeNormal w.InvSqrt

/-- The member `UpdateGrapple`: moves the cable end to the grapple location in actor
space and passes `force * 2` to `AddForce`. -/
def UpdateGrapple (w : World) (s : Character) : Character :=
  { s with
    GrappleCable :=
      { s.GrappleCable with EndLocation := w.InverseTransformPosition s.vGrappleLocation }
    calls := s.calls ++ [Call.UpdateGrapple, Call.AddForce ((UpdateGrapple.force w s).scale 2)] }

/-- The member `Tick`. Its argument `DeltaSeconds` is only forwarded to `Super::Tick`,
which touches none of the modelled fields. -/
def Tick (w : World) (s : Character) : Character :=
  if s.bGrappleAttached then UpdateGrapple w s else s

/-- The `start` point of the trace in `ConnectGrapplingHook`. -/
def ConnectGrapplingHook.start (w : World) : FVector := w.CameraLocation

/-- The `end` point of the trace in `ConnectGrapplingHook`. -/
def ConnectGrapplingHook.traceEnd (w : World) (s : Character) : FVector :=
  (ConnectGrapplingHook.start w).add (w.CameraForward.scale s.fGrappleDistance)

/-- The result `hasHit` of the sphere trace in `ConnectGrapplingHook`. -/
def ConnectGrapplingHook.hasHit (w : World) (s : Character) : Bool :=
  (w.SphereTraceSingleForObjects (ConnectGrapplingHook.start w)
    (ConnectGrapplingHook.traceEnd w s)).1

/-- The `hit.ImpactPoint` of the sphere trace in `ConnectGrapplingHook`. -/
def ConnectGrapplingHook.ImpactPoint (w : World) (s : Character) : FVector :=
  (w.SphereTraceSingleForObjects (ConnectGrapplingHook.start w)
    (ConnectGrapplingHook.traceEnd w s)).2

/-- The member `ConnectGrapplingHook`: traces from the camera along its forward vector
and attaches to the impact point on a hit. -/
def ConnectGrapplingHook (w : World) (s : Character) : Character :=
  let start := ConnectGrapplingHook.start w
  let traceEnd := ConnectGrapplingHook.traceEnd w s
  let traced := { s with calls := s.calls ++ [Call.SphereTraceSingleForObjects start traceEnd] }
  if ConnectGrapplingHook.hasHit w s then
    { traced with
      vGrappleLocation := ConnectGrapplingHook.ImpactPoint w s
      bGrappleAttached := true
      GrappleCable := s.GrappleCable.SetHiddenInGame false }
  else traced

/-- The member `DisconnectGrapplingHook`. -/
def DisconnectGrapplingHook (s : Character) : Character :=
  let detached :=
    { s with
      bGrappleAttached := false
      GrappleCable := s.GrappleCable.SetHiddenInGame true }
  if detached.MovementMode ≠ EMovementMode.MOVE_Falling then
    { detached with MovementMode := EMovementMode.MOVE_Falling }
  else detached

/-- The member `CheckGrapple`. -/
def CheckGrapple (w : World) (s : Character) : Character :=
  if !s.bGrappleAttached then ConnectGrapplingHook w s else DisconnectGrapplingHook s

/-- The member `SwitchCamera`. -/
def SwitchCamera (s : Character) : Character :=
  let switched :=
    if s.bThirdPersonCameraEnabled then
      { s with
        FirstPersonCamera := s.FirstPersonCamera.SetActive true
        ThirdPersonCamera := s.ThirdPersonCamera.SetActive false
        bUseControllerRotationYaw := true }
    else
      { s with
        ThirdPersonCamera := s.ThirdPersonCamera.SetActive true
        FirstPersonCamera := s.FirstPersonCamera.SetActive false
        bUseControllerRotationYaw := false }
  { switched with bThirdPersonCameraEnabled := !switched.bThirdPersonCameraEnabled }

/-- The bindings `SetupPlayerInputComponent` makes on an enhanced input component, in
source order. -/
def SetupPlayerInputComponent.bindings : List Call :=
  [ Call.BindAction .JumpAction .Started .Jump,
    Call.BindAction .JumpAction .Completed .StopJumping,
    Call.BindAction .MoveAction .Triggered .Move,
    Call.BindAction .LookAction .Triggered .Look,
    Call.BindAction .CameraToggleAction .Completed .SwitchCamera,
    Call.BindAction .CrouchAction .Started .Crouch,
    Call.BindAction .CrouchAction .Completed .UnCrouch,
    Call.BindAction .GrappleAction .Completed .CheckGrapple ]

/-- The member `SetupPlayerInputComponent`. -/
def SetupPlayerInputComponent (controller : Controller)
    (PlayerInputComponent : UInputComponent) (s : Character) : Character :=
  let mapped :=
    match controller with
    | .player true => { s with calls := s.calls ++ [Call.AddMappingContext] }
    | _ => s
  match PlayerInputComponent with
  | .enhanced => { mapped with calls := mapped.calls ++ SetupPlayerInputComponent.bindings }
  | _ => { mapped with calls := mapped.calls ++ [Call.LogError] }

/-! ## Call sequences -/

/-- One call on the character, as the engine or the input system may issue it. -/
inductive Op where
  | CheckGrapple (w : World)
  | ConnectGrapplingHook (w : World)
  | DisconnectGrapplingHook
  | SwitchCamera
  | Tick (w : World)

/-- Whether a call is `SwitchCamera`. -/
def Op.isSwitchCamera : Op → Bool
  | .SwitchCamera => true
  | _ => false

/-- The effect of one call. -/
def Op.apply (op : Op) (s : Character) : Character :=
  match op with
  | .CheckGrapple w => PracticeProject.CheckGrapple w s
  | .ConnectGrapplingHook w => PracticeProject.ConnectGrapplingHook w s
  | .DisconnectGrapplingHook => PracticeProject.DisconnectGrapplingHook s
  | .SwitchCamera => PracticeProject.SwitchCamera s
  | .Tick w => PracticeProject.Tick w s

/-- The state after a finite sequence of calls, first call first. -/
def run (s : Character) : List Op → Character
  | [] => s
  | op :: ops => run (op.apply s) ops

/-- The state in which two successive `SwitchCamera` calls restore the camera flag, both
active flags and `bUseControllerRotationYaw`. -/
def SwitchTwiceRestores (s : Character) : Prop :=
  (SwitchCamera (SwitchCamera s)).bThirdPersonCameraEnabled = s.bThirdPersonCameraEnabled ∧
  (SwitchCamera (SwitchCamera s)).FirstPersonCamera.bIsActive = s.FirstPersonCamera.bIsActive ∧
  (SwitchCamera (SwitchCamera s)).ThirdPersonCamera.bIsActive = s.ThirdPersonCamera.bIsActive ∧
  (SwitchCamera (SwitchCamera s)).bUseControllerRotationYaw = s.bUseControllerRotationYaw

/-! ## Concrete states and worlds -/

/-- An object before construction, every field at an arbitrary value. -/
def rawCharacter : Character :=
  { bUseControllerRotationPitch := true
    bUseControllerRotationYaw := true
    bUseControllerRotationRoll := true
    ThirdPersonCamera :=
      { bAutoActivate := true, bIsActive := true, bUsePawnControlRotation := true }
    FirstPersonCamera :=
      { bAutoActivate := false, bIsActive := false, bUsePawnControlRotation := false }
    GrappleCable := { bHiddenInGame := false, EndLocation := ⟨7, 7, 7⟩ }
    fGrappleDistance := 0
    magnitudeClamp := 1
    bThirdPersonCameraEnabled := true
    bGrappleAttached := true
    vGrappleLocation := ⟨0, 0, 0⟩
    MovementMode := EMovementMode.MOVE_Walking
    calls := [Call.LogError] }

/-- The constructed character. -/
def constructed : Character := APracticeProjectCharacter rawCharacter

/-- The constructed character attached to the origin. -/
def attachedAtOrigin : Character :=
  { constructed with
    bGrappleAttached := true
    vGrappleLocation := ⟨0, 0, 0⟩
    GrappleCable := constructed.GrappleCable.SetHiddenInGame false }

/-- A world in which the actor rests at (1, 0, 0) and every trace misses. -/
def missWorld : World :=
  { ActorLocation := ⟨1, 0, 0⟩
    InverseTransformPosition := fun v => FVector.sub v ⟨1, 0, 0⟩
    Velocity := ⟨0, 0, 0⟩
    CameraLocation := ⟨1, 0, 0⟩
    CameraForward := ⟨0, 0, 1⟩
    SphereTraceSingleForObjects := fun _ _ => (false, ⟨0, 0, 0⟩)
    InvSqrt := fun _ => 1 }

/-- A world in which the actor rests at (1, 0, 0) and every trace hits at (3, 4, 5). -/
def hitWorld : World :=
  { missWorld with SphereTraceSingleForObjects := fun _ _ => (true, ⟨3, 4, 5⟩) }

/-- A world in which the actor is at (1, 0, 0) and moves away from the origin with
velocity (10, 0, 0). -/
def recedingWorld : World :=
  { missWorld with Velocity := ⟨10, 0, 0⟩ }

/-! ## Grapple attachment -/

/-- `DisconnectGrapplingHook` in closed form: whichever branch is taken, the movement
mode ends at `MOVE_Falling`. -/
theorem DisconnectGrapplingHook_eq (s : Character) :
    DisconnectGrapplingHook s =
      { s with
        bGrappleAttached := false
        GrappleCable := s.GrappleCable.SetHiddenInGame true
        MovementMode := EMovementMode.MOVE_Falling } := by
  by_cases hmode : s.MovementMode = EMovementMode.MOVE_Falling <;>
    simp [DisconnectGrapplingHook, hmode]

/-- C1: a trace miss is a no-op. When the sphere trace of `ConnectGrapplingHook` reports
no hit, `bGrappleAttached`, `vGrappleLocation` and the hidden flag of the cable are what
they were before the call, and the same holds for `CheckGrapple` called while detached. -/
theorem trace_miss_is_noop (w : World) (s : Character)
    (hmiss : ConnectGrapplingHook.hasHit w s = false) :
    ((ConnectGrapplingHook w s).bGrappleAttached = s.bGrappleAttached ∧
      (ConnectGrapplingHook w s).vGrappleLocation = s.vGrappleLocation ∧
      (ConnectGrapplingHook w s).GrappleCable.bHiddenInGame = s.GrappleCable.bHiddenInGame) ∧
    (s.bGrappleAttached = false →
      (CheckGrapple w s).bGrappleAttached = s.bGrappleAttached ∧
      (CheckGrapple w s).vGrappleLocation = s.vGrappleLocation ∧
      (CheckGrapple w s).GrappleCable.bHiddenInGame = s.GrappleCable.bHiddenInGame) := by
  have hconnect : ConnectGrapplingHook w s =
      { s with calls := s.calls ++ [Call.SphereTraceSingleForObjects
        (ConnectGrapplingHook.start w) (ConnectGrapplingHook.traceEnd w s)] } := by
    simp [ConnectGrapplingHook, hmiss]
  refine ⟨by simp [hconnect], fun hdetached => ?_⟩
  have hcheck : CheckGrapple w s = ConnectGrapplingHook w s := by
    simp [CheckGrapple, hdetached]
  simp [hcheck, hconnect]

/-- The no-op on a miss, at the constructed character in a world where traces miss. -/
theorem trace_miss_is_noop_witness :
    ConnectGrapplingHook.hasHit missWorld constructed = false ∧
    constructed.bGrappleAttached = false ∧
    (ConnectGrapplingHook missWorld constructed).bGrappleAttached = false ∧
    (ConnectGrapplingHook missWorld constructed).GrappleCable.bHiddenInGame = true ∧
    (CheckGrapple missWorld constructed).bGrappleAttached = constructed.bGrappleAttached ∧
    (CheckGrapple missWorld constructed).vGrappleLocation = constructed.vGrappleLocation ∧
    (CheckGrapple missWorld constructed).GrappleCable.bHiddenInGame =
      constructed.GrappleCable.bHiddenInGame :=
  have h := trace_miss_is_noop missWorld constructed rfl
  ⟨rfl, rfl, h.1.1, h.1.2.2, h.2 rfl⟩

/-- C2: detachment leaves the grapple location stale. `DisconnectGrapplingHook` clears
`bGrappleAttached` and leaves `vGrappleLocation` at its value before the call. -/
theorem disconnect_keeps_location (s : Character) :
    (DisconnectGrapplingHook s).bGrappleAttached = false ∧
    (DisconnectGrapplingHook s).vGrappleLocation = s.vGrappleLocation := by
  rw [DisconnectGrapplingHook_eq]
  exact ⟨rfl, rfl⟩

/-- C8: `CheckGrapple` toggles attachment. While attached it detaches, hides the cable
and leaves the movement mode at `MOVE_Falling` without running a trace (the call log is
unchanged and the result does not depend on the world); while detached, a trace hit at
`p` attaches at `p`, shows the cable and leaves the movement mode unchanged. -/
theorem checkGrapple_toggles (w : World) (s : Character) :
    (s.bGrappleAttached = true →
      (CheckGrapple w s).bGrappleAttached = false ∧
      (CheckGrapple w s).GrappleCable.bHiddenInGame = true ∧
      (CheckGrapple w s).MovementMode = EMovementMode.MOVE_Falling ∧
      (CheckGrapple w s).calls = s.calls ∧
      ∀ w2 : World, CheckGrapple w2 s = CheckGrapple w s) ∧
    (s.bGrappleAttached = false →
      ∀ p : FVector,
        w.SphereTraceSingleForObjects (ConnectGrapplingHook.start w)
          (ConnectGrapplingHook.traceEnd w s) = (true, p) →
        (CheckGrapple w s).bGrappleAttached = true ∧
        (CheckGrapple w s).vGrappleLocation = p ∧
        (CheckGrapple w s).GrappleCable.bHiddenInGame = false ∧
        (CheckGrapple w s).MovementMode = s.MovementMode) := by
  constructor
  · intro hattached
    have hcheck : ∀ w2 : World, CheckGrapple w2 s = DisconnectGrapplingHook s := by
      intro w2
      simp [CheckGrapple, hattached]
    rw [hcheck w]
    rw [DisconnectGrapplingHook_eq]
    exact ⟨rfl, rfl, rfl, rfl, fun w2 => by rw [hcheck w2, DisconnectGrapplingHook_eq]⟩
  · intro hdetached p htrace
    have hhit : ConnectGrapplingHook.hasHit w s = true := by
      simp [ConnectGrapplingHook.hasHit, htrace]
    have hpoint : ConnectGrapplingHook.ImpactPoint w s = p := by
      simp [ConnectGrapplingHook.ImpactPoint, htrace]
    simp [CheckGrapple, hdetached, ConnectGrapplingHook, hhit, hpoint,
      UCableComponent.SetHiddenInGame]

/-- The toggle at an attached character and at the constructed one with a trace hit. -/
theorem checkGrapple_toggles_witness :
    attachedAtOrigin.bGrappleAttached = true ∧
    (CheckGrapple hitWorld attachedAtOrigin).bGrappleAttached = false ∧
    (CheckGrapple hitWorld attachedAtOrigin).MovementMode = EMovementMode.MOVE_Falling ∧
    constructed.bGrappleAttached = false ∧
    (CheckGrapple hitWorld constructed).bGrappleAttached = true ∧
    (CheckGrapple hitWorld constructed).vGrappleLocation = ⟨3, 4, 5⟩ ∧
    (CheckGrapple hitWorld constructed).GrappleCable.bHiddenInGame = false :=
  have h := checkGrapple_toggles hitWorld
  have hoff := (h attachedAtOrigin).1 rfl
  have hon := (h constructed).2 rfl ⟨3, 4, 5⟩ rfl
  ⟨rfl, hoff.1, hoff.2.2.1, rfl, hon.1, hon.2.1, hon.2.2.1⟩

/-! ## Tick -/

/-- C7: the grapple location is used only while attached. While detached, `Tick` does
not call `UpdateGrapple`: the state, hence the call log (no `AddForce`) and the end
location of the cable, is unchanged. While attached, `Tick` is one `UpdateGrapple` call:
the log gains exactly one `UpdateGrapple` entry followed by one `AddForce`. -/
theorem tick_updates_only_while_attached (w : World) (s : Character) :
    (s.bGrappleAttached = false →
      Tick w s = s ∧
      (Tick w s).calls = s.calls ∧
      (Tick w s).GrappleCable.EndLocation = s.GrappleCable.EndLocation) ∧
    (s.bGrappleAttached = true →
      Tick w s = UpdateGrapple w s ∧
      (Tick w s).calls =
        s.calls ++ [Call.UpdateGrapple, Call.AddForce ((UpdateGrapple.force w s).scale 2)] ∧
      (Tick w s).calls.count Call.UpdateGrapple = s.calls.count Call.UpdateGrapple + 1) := by
  constructor
  · intro hdetached
    have htick : Tick w s = s := by simp [Tick, hdetached]
    simp [htick]
  · intro hattached
    have htick : Tick w s = UpdateGrapple w s := by simp [Tick, hattached]
    rw [htick]
    refine ⟨rfl, rfl, ?_⟩
    simp [UpdateGrapple, List.count_append, List.count_cons]

/-- The gate of `Tick`, at the constructed character and at an attached one. -/
theorem tick_updates_only_while_attached_witness :
    constructed.bGrappleAttached = false ∧
    Tick missWorld constructed = constructed ∧
    attachedAtOrigin.bGrappleAttached = true ∧
    (Tick missWorld attachedAtOrigin).calls.count Call.UpdateGrapple =
      attachedAtOrigin.calls.count Call.UpdateGrapple + 1 :=
  have h := tick_updates_only_while_attached missWorld
  ⟨rfl, ((h constructed).1 rfl).1, rfl, ((h attachedAtOrigin).2 rfl).2.2⟩

/-! ## Camera -/

/-- C5: `bThirdPersonCameraEnabled` tracks the active camera. After `SwitchCamera`
exactly one of the two cameras is active, the flag is the negation of its value before
the call, and the flag is set exactly when the third person camera is the active one. -/
theorem switchCamera_flag_tracks_active (s : Character) :
    (((SwitchCamera s).FirstPersonCamera.bIsActive = true ∧
        (SwitchCamera s).ThirdPersonCamera.bIsActive = false) ∨
      ((SwitchCamera s).FirstPersonCamera.bIsActive = false ∧
        (SwitchCamera s).ThirdPersonCamera.bIsActive = true)) ∧
    (SwitchCamera s).bThirdPersonCameraEnabled = !s.bThirdPersonCameraEnabled ∧
    ((SwitchCamera s).bThirdPersonCameraEnabled = true ↔
      ((SwitchCamera s).ThirdPersonCamera.bIsActive = true ∧
        (SwitchCamera s).FirstPersonCamera.bIsActive = false)) := by
  cases hflag : s.bThirdPersonCameraEnabled <;>
    simp [SwitchCamera, hflag, UCameraComponent.SetActive]

/-! ## Input setup -/

/-- C6: a missing enhanced input component is logged and otherwise ignored. When the
component passed to `SetupPlayerInputComponent` is not an enhanced input component,
exactly one error is logged, no `BindAction` call is made, and the grapple and camera
fields of the character are unchanged. -/
theorem setup_without_enhanced_input (controller : Controller)
    (PlayerInputComponent : UInputComponent) (s : Character)
    (hlegacy : PlayerInputComponent ≠ UInputComponent.enhanced) :
    (SetupPlayerInputComponent controller PlayerInputComponent s).calls.count Call.LogError =
      s.calls.count Call.LogError + 1 ∧
    (SetupPlayerInputComponent controller PlayerInputComponent s).calls.filter
      Call.isBindAction = s.calls.filter Call.isBindAction ∧
    { SetupPlayerInputComponent controller PlayerInputComponent s with calls := s.calls } = s := by
  have hsetup : SetupPlayerInputComponent controller PlayerInputComponent s =
      { s with calls := (match controller with
          | .player true => s.calls ++ [Call.AddMappingContext]
          | _ => s.calls) ++ [Call.LogError] } := by
    cases PlayerInputComponent <;> rcases controller with _ | _ | ⟨_ | _⟩ <;>
      first
        | exact absurd rfl hlegacy
        | rfl
  rw [hsetup]
  refine ⟨?_, ?_, rfl⟩
  · rcases controller with _ | _ | ⟨_ | _⟩ <;> simp [List.count_append, List.count_cons]
  · rcases controller with _ | _ | ⟨_ | _⟩ <;>
      simp [List.filter_append, Call.isBindAction]

/-- The setup with a legacy input component, at the constructed character. -/
theorem setup_without_enhanced_input_witness :
    (SetupPlayerInputComponent (Controller.player true) UInputComponent.legacy
      constructed).calls = [Call.AddMappingContext, Call.LogError] ∧
    (SetupPlayerInputComponent (Controller.player true) UInputComponent.legacy
      constructed).calls.count Call.LogError = constructed.calls.count Call.LogError + 1 ∧
    (SetupPlayerInputComponent (Controller.player true) UInputComponent.legacy
      constructed).calls.filter Call.isBindAction = constructed.calls.filter Call.isBindAction :=
  have h := setup_without_enhanced_input (Controller.player true) UInputComponent.legacy
    constructed (by decide)
  ⟨rfl, h.1, h.2.1⟩

/-! ## Invariants along call sequences -/

/-- Every call keeps the cable hidden exactly when the grapple is detached. -/
theorem apply_keeps_cable_mirror (op : Op) (s : Character)
    (hmirror : s.GrappleCable.bHiddenInGame = !s.bGrappleAttached) :
    (op.apply s).GrappleCable.bHiddenInGame = !(op.apply s).bGrappleAttached := by
  have hconnect : ∀ w : World, (ConnectGrapplingHook w s).GrappleCable.bHiddenInGame =
      !(ConnectGrapplingHook w s).bGrappleAttached := by
    intro w
    cases hhit : ConnectGrapplingHook.hasHit w s <;>
      simp [ConnectGrapplingHook, hhit, hmirror, UCableComponent.SetHiddenInGame]
  have hdisconnect : (DisconnectGrapplingHook s).GrappleCable.bHiddenInGame =
      !(DisconnectGrapplingHook s).bGrappleAttached := by
    rw [DisconnectGrapplingHook_eq]
    rfl
  cases op with
  | CheckGrapple w =>
    cases hattached : s.bGrappleAttached
    · simpa [Op.apply, CheckGrapple, hattached] using hconnect w
    · simpa [Op.apply, CheckGrapple, hattached] using hdisconnect
  | ConnectGrapplingHook w => exact hconnect w
  | DisconnectGrapplingHook => exact hdisconnect
  | SwitchCamera =>
    cases hflag : s.bThirdPersonCameraEnabled <;>
      simp [Op.apply, SwitchCamera, hflag, hmirror]
  | Tick w =>
    cases hattached : s.bGrappleAttached <;>
      simp [Op.apply, Tick, UpdateGrapple, hattached, hmirror]

/-- A call other than `SwitchCamera` leaves the camera fields alone. -/
theorem apply_keeps_camera (op : Op) (s : Character) (hop : op.isSwitchCamera = false) :
    (op.apply s).bThirdPersonCameraEnabled = s.bThirdPersonCameraEnabled ∧
    (op.apply s).bUseControllerRotationYaw = s.bUseControllerRotationYaw ∧
    (op.apply s).FirstPersonCamera = s.FirstPersonCamera ∧
    (op.apply s).ThirdPersonCamera = s.ThirdPersonCamera := by
  cases op with
  | CheckGrapple w =>
    cases hattached : s.bGrappleAttached
    · cases hhit : ConnectGrapplingHook.hasHit w s <;>
        simp [Op.apply, CheckGrapple, hattached, ConnectGrapplingHook, hhit]
    · simp [Op.apply, CheckGrapple, hattached, DisconnectGrapplingHook_eq]
  | ConnectGrapplingHook w =>
    cases hhit : ConnectGrapplingHook.hasHit w s <;>
      simp [Op.apply, ConnectGrapplingHook, hhit]
  | DisconnectGrapplingHook => simp [Op.apply, DisconnectGrapplingHook_eq]
  | SwitchCamera => simp [Op.isSwitchCamera] at hop
  | Tick w =>
    cases hattached : s.bGrappleAttached <;>
      simp [Op.apply, Tick, UpdateGrapple, hattached]

/-- The camera fields after one `SwitchCamera`, in terms of the flag before it. -/
theorem SwitchCamera_fields (s : Character) :
    (SwitchCamera s).bThirdPersonCameraEnabled = !s.bThirdPersonCameraEnabled ∧
    (SwitchCamera s).bUseControllerRotationYaw = s.bThirdPersonCameraEnabled ∧
    (SwitchCamera s).FirstPersonCamera.bIsActive = s.bThirdPersonCameraEnabled ∧
    (SwitchCamera s).ThirdPersonCamera.bIsActive = !s.bThirdPersonCameraEnabled := by
  cases hflag : s.bThirdPersonCameraEnabled <;>
    simp [SwitchCamera, hflag, UCameraComponent.SetActive]

/-- Every call keeps each camera active exactly as the flag says. -/
theorem apply_keeps_active_flags (op : Op) (s : Character)
    (hactive : s.ThirdPersonCamera.bIsActive = s.bThirdPersonCameraEnabled ∧
      s.FirstPersonCamera.bIsActive = !s.bThirdPersonCameraEnabled) :
    (op.apply s).ThirdPersonCamera.bIsActive = (op.apply s).bThirdPersonCameraEnabled ∧
    (op.apply s).FirstPersonCamera.bIsActive = !(op.apply s).bThirdPersonCameraEnabled := by
  cases hop : op.isSwitchCamera
  · obtain ⟨hflag, _, hfirst, hthird⟩ := apply_keeps_camera op s hop
    rw [hflag, hfirst, hthird]
    exact hactive
  · cases op <;> simp [Op.isSwitchCamera] at hop
    obtain ⟨hflag, _, hfirst, hthird⟩ := SwitchCamera_fields s
    simp [Op.apply, hflag, hfirst, hthird]

/-- Once the yaw flag is the negation of the camera flag, every call keeps it so. -/
theorem apply_keeps_yaw (op : Op) (s : Character)
    (hyaw : s.bUseControllerRotationYaw = !s.bThirdPersonCameraEnabled) :
    (op.apply s).bUseControllerRotationYaw = !(op.apply s).bThirdPersonCameraEnabled := by
  cases hop : op.isSwitchCamera
  · obtain ⟨hflag, hsame, _, _⟩ := apply_keeps_camera op s hop
    rw [hflag, hsame]
    exact hyaw
  · cases op <;> simp [Op.isSwitchCamera] at hop
    obtain ⟨hflag, hset, _, _⟩ := SwitchCamera_fields s
    simp [Op.apply, hflag, hset]

/-- The cable invariant along a call sequence. -/
theorem run_keeps_cable_mirror (ops : List Op) (s : Character)
    (hmirror : s.GrappleCable.bHiddenInGame = !s.bGrappleAttached) :
    (run s ops).GrappleCable.bHiddenInGame = !(run s ops).bGrappleAttached := by
  induction ops generalizing s with
  | nil => exact hmirror
  | cons op ops ih => exact ih (op.apply s) (apply_keeps_cable_mirror op s hmirror)

/-- The active flags along a call sequence. -/
theorem run_keeps_active_flags (ops : List Op) (s : Character)
    (hactive : s.ThirdPersonCamera.bIsActive = s.bThirdPersonCameraEnabled ∧
      s.FirstPersonCamera.bIsActive = !s.bThirdPersonCameraEnabled) :
    (run s ops).ThirdPersonCamera.bIsActive = (run s ops).bThirdPersonCameraEnabled ∧
    (run s ops).FirstPersonCamera.bIsActive = !(run s ops).bThirdPersonCameraEnabled := by
  induction ops generalizing s with
  | nil => exact hactive
  | cons op ops ih => exact ih (op.apply s) (apply_keeps_active_flags op s hactive)

/-- The yaw relation along a call sequence. -/
theorem run_keeps_yaw (ops : List Op) (s : Character)
    (hyaw : s.bUseControllerRotationYaw = !s.bThirdPersonCameraEnabled) :
    (run s ops).bUseControllerRotationYaw = !(run s ops).bThirdPersonCameraEnabled := by
  induction ops generalizing s with
  | nil => exact hyaw
  | cons op ops ih => exact ih (op.apply s) (apply_keeps_yaw op s hyaw)

/-- A call sequence containing a `SwitchCamera` ends with the yaw flag the negation of
the camera flag. -/
theorem run_sets_yaw (ops : List Op) (s : Character)
    (hswitched : ops.any Op.isSwitchCamera = true) :
    (run s ops).bUseControllerRotationYaw = !(run s ops).bThirdPersonCameraEnabled := by
  induction ops generalizing s with
  | nil => simp at hswitched
  | cons op ops ih =>
    cases hop : op.isSwitchCamera
    · have hrest : ops.any Op.isSwitchCamera = true := by
        simpa [List.any_cons, hop] using hswitched
      exact ih (op.apply s) hrest
    · cases op <;> simp [Op.isSwitchCamera] at hop
      obtain ⟨hflag, hset, _, _⟩ := SwitchCamera_fields s
      exact run_keeps_yaw ops _ (by simp [Op.apply, hflag, hset])

/-- A call sequence without `SwitchCamera` leaves the camera flag and the yaw flag. -/
theorem run_without_switch (ops : List Op) (s : Character)
    (hnone : ops.any Op.isSwitchCamera = false) :
    (run s ops).bThirdPersonCameraEnabled = s.bThirdPersonCameraEnabled ∧
    (run s ops).bUseControllerRotationYaw = s.bUseControllerRotationYaw := by
  induction ops generalizing s with
  | nil => exact ⟨rfl, rfl⟩
  | cons op ops ih =>
    have hsplit : op.isSwitchCamera = false ∧ ops.any Op.isSwitchCamera = false := by
      simpa [List.any_cons] using hnone
    obtain ⟨hflag, hsame, _, _⟩ := apply_keeps_camera op s hsplit.1
    obtain ⟨hflag2, hsame2⟩ := ih (op.apply s) hsplit.2
    exact ⟨by rw [← hflag]; exact hflag2, by rw [← hsame]; exact hsame2⟩

/-- C9: cable visibility mirrors attachment in every reachable state. From the
constructed character, after any finite sequence of `CheckGrapple`,
`ConnectGrapplingHook`, `DisconnectGrapplingHook`, `SwitchCamera` and `Tick` calls in
arbitrary worlds, the cable is hidden in game if and only if the grapple is detached. -/
theorem cable_hidden_iff_detached (raw : Character) (ops : List Op) :
    (run (APracticeProjectCharacter raw) ops).GrappleCable.bHiddenInGame = true ↔
      (run (APracticeProjectCharacter raw) ops).bGrappleAttached = false := by
  have hmirror := run_keeps_cable_mirror ops (APracticeProjectCharacter raw) rfl
  rw [hmirror]
  simp

/-- C10, as stated, fails at the constructed character: two `SwitchCamera` calls leave
`bUseControllerRotationYaw` set, while the constructor cleared it. -/
theorem switch_twice_changes_yaw_at_construction :
    (run (APracticeProjectCharacter rawCharacter) []).bUseControllerRotationYaw = false ∧
    (SwitchCamera (SwitchCamera
      (run (APracticeProjectCharacter rawCharacter) []))).bUseControllerRotationYaw = true ∧
    ¬ SwitchTwiceRestores (run (APracticeProjectCharacter rawCharacter) []) ∧
    ¬ ∀ (raw : Character) (ops : List Op),
      SwitchTwiceRestores (run (APracticeProjectCharacter raw) ops) := by
  have hfails : ¬ SwitchTwiceRestores (run (APracticeProjectCharacter rawCharacter) []) := by
    intro hrestores
    exact absurd hrestores.2.2.2 (by decide)
  exact ⟨rfl, rfl, hfails, fun hall => hfails (hall rawCharacter [])⟩

/-- C10, amended: in every state reachable from the constructed character, two
successive `SwitchCamera` calls restore `bThirdPersonCameraEnabled` and the active flag of
both cameras; they restore `bUseControllerRotationYaw` as well once `SwitchCamera` has been
called before, and before any `SwitchCamera` call they turn it from false to true. -/
theorem switch_twice_restores_after_first_switch (raw : Character) (ops : List Op) :
    (SwitchCamera (SwitchCamera (run (APracticeProjectCharacter raw) ops))).bThirdPersonCameraEnabled
      = (run (APracticeProjectCharacter raw) ops).bThirdPersonCameraEnabled ∧
    (SwitchCamera (SwitchCamera (run (APracticeProjectCharacter raw) ops))).FirstPersonCamera.bIsActive
      = (run (APracticeProjectCharacter raw) ops).FirstPersonCamera.bIsActive ∧
    (SwitchCamera (SwitchCamera (run (APracticeProjectCharacter raw) ops))).ThirdPersonCamera.bIsActive
      = (run (APracticeProjectCharacter raw) ops).ThirdPersonCamera.bIsActive ∧
    (ops.any Op.isSwitchCamera = true →
      SwitchTwiceRestores (run (APracticeProjectCharacter raw) ops)) ∧
    (ops.any Op.isSwitchCamera = false →
      (run (APracticeProjectCharacter raw) ops).bUseControllerRotationYaw = false ∧
      (SwitchCamera (SwitchCamera
        (run (APracticeProjectCharacter raw) ops))).bUseControllerRotationYaw = true) := by
  obtain ⟨hthird, hfirst⟩ :=
    run_keeps_active_flags ops (APracticeProjectCharacter raw) ⟨rfl, rfl⟩
  have hswitched : ops.any Op.isSwitchCamera = true →
      (run (APracticeProjectCharacter raw) ops).bUseControllerRotationYaw =
        !(run (APracticeProjectCharacter raw) ops).bThirdPersonCameraEnabled :=
    run_sets_yaw ops (APracticeProjectCharacter raw)
  have hnone : ops.any Op.isSwitchCamera = false →
      (run (APracticeProjectCharacter raw) ops).bThirdPersonCameraEnabled = false ∧
      (run (APracticeProjectCharacter raw) ops).bUseControllerRotationYaw = false :=
    run_without_switch ops (APracticeProjectCharacter raw)
  generalize run (APracticeProjectCharacter raw) ops = s at hthird hfirst hswitched hnone
  obtain ⟨hflag1, hyaw1, hfirst1, hthird1⟩ := SwitchCamera_fields s
  obtain ⟨hflag2, hyaw2, hfirst2, hthird2⟩ := SwitchCamera_fields (SwitchCamera s)
  have hflag : (SwitchCamera (SwitchCamera s)).bThirdPersonCameraEnabled =
      s.bThirdPersonCameraEnabled := by
    rw [hflag2, hflag1]; simp
  have hfirstActive : (SwitchCamera (SwitchCamera s)).FirstPersonCamera.bIsActive =
      s.FirstPersonCamera.bIsActive := by
    rw [hfirst2, hflag1, hfirst]
  have hthirdActive : (SwitchCamera (SwitchCamera s)).ThirdPersonCamera.bIsActive =
      s.ThirdPersonCamera.bIsActive := by
    rw [hthird2, hflag1, hthird]; simp
  refine ⟨hflag, hfirstActive, hthirdActive, fun hany => ?_, fun hany => ?_⟩
  · refine ⟨hflag, hfirstActive, hthirdActive, ?_⟩
    rw [hyaw2, hflag1, hswitched hany]
  · obtain ⟨hoff, hyaw⟩ := hnone hany
    refine ⟨hyaw, ?_⟩
    rw [hyaw2, hflag1, hoff]
    rfl

/-- The amended claim after one `SwitchCamera` call and before any. -/
theorem switch_twice_restores_after_first_switch_witness :
    SwitchTwiceRestores (run (APracticeProjectCharacter rawCharacter)
      [Op.Tick missWorld, Op.SwitchCamera, Op.CheckGrapple hitWorld]) ∧
    (SwitchCamera (SwitchCamera (run (APracticeProjectCharacter rawCharacter)
      [Op.CheckGrapple hitWorld]))).bUseControllerRotationYaw = true :=
  ⟨(switch_twice_restores_after_first_switch rawCharacter
      [Op.Tick missWorld, Op.SwitchCamera, Op.CheckGrapple hitWorld]).2.2.2.1 rfl,
    ((switch_twice_restores_after_first_switch rawCharacter
      [Op.CheckGrapple hitWorld]).2.2.2.2 rfl).2⟩

/-! ## Grapple force -/

/-- The `FClamp` step of `UpdateGrapple` passes the clamped value itself as upper bound,
so it only bounds the value from below. -/
theorem UpdateGrapple.magnitude_eq_max (w : World) (s : Character) :
    UpdateGrapple.magnitude w s =
      max (FVector.DotProduct (FVector.sub w.ActorLocation s.vGrappleLocation) w.Velocity)
        (-s.magnitudeClamp) := by
  simp [UpdateGrapple.magnitude, FClamp]

/-- `GetSafeNormal` returns a non-negative multiple of its argument whenever the
reciprocal square root is non-negative. -/
theorem FVector.GetSafeNormal_eq_scale (InvSqrt : ℚ → ℚ) (hpos : ∀ x, 0 ≤ InvSqrt x)
    (v : FVector) : ∃ k : ℚ, 0 ≤ k ∧ v.GetSafeNormal InvSqrt = v.scale k := by
  unfold FVector.GetSafeNormal
  simp only
  split_ifs with hone hsmall
  · exact ⟨1, by norm_num, by simp [FVector.scale]⟩
  · exact ⟨0, le_refl 0, by simp [FVector.scale, FVector.ZeroVector]⟩
  · exact ⟨InvSqrt (v.X * v.X + v.Y * v.Y + v.Z * v.Z), hpos _, rfl⟩

/-- Unless the actor approaches the grapple location fast enough for the clamped
magnitude to fall below -0.5, the vector passed to `AddForce` has a non-positive dot
product with the vector from the actor to the grapple location. -/
theorem UpdateGrapple.force_away_unless_approaching (w : World) (s : Character)
    (hpos : ∀ x, 0 ≤ w.InvSqrt x) (hlow : -(1 / 2) ≤ UpdateGrapple.magnitude w s) :
    FVector.DotProduct ((UpdateGrapple.force w s).scale 2)
      (FVector.sub s.vGrappleLocation w.ActorLocation) ≤ 0 := by
  obtain ⟨k, hk, hnormal⟩ := FVector.GetSafeNormal_eq_scale w.InvSqrt hpos
    (FVector.sub w.ActorLocation s.vGrappleLocation)
  have hx := sq_nonneg (w.ActorLocation.X - s.vGrappleLocation.X)
  have hy := sq_nonneg (w.ActorLocation.Y - s.vGrappleLocation.Y)
  have hz := sq_nonneg (w.ActorLocation.Z - s.vGrappleLocation.Z)
  unfold UpdateGrapple.force
  simp only
  split_ifs with hbig
  · have hm : 0 ≤ UpdateGrapple.magnitude w s := by
      rcases hbig with hbig | hbig <;> linarith
    rw [hnormal]
    simp only [FVector.scale, FVector.DotProduct, FVector.sub]
    have hkm := mul_nonneg hk hm
    nlinarith [mul_nonneg hkm hx, mul_nonneg hkm hy, mul_nonneg hkm hz]
  · rw [hnormal]
    simp only [FVector.scale, FVector.DotProduct, FVector.sub]
    nlinarith [mul_nonneg hk hx, mul_nonneg hk hy, mul_nonneg hk hz]

/-- C3 at an actor resting at (1, 0, 0) and attached to the origin with clamp 1: the
clamped magnitude is 0, `UpdateGrapple` passes (2, 0, 0) to `AddForce`, and the dot
product of that vector with the vector from the actor to the grapple location is -2. The
force points away from the impact point. -/
theorem resting_force_points_away :
    UpdateGrapple.magnitude missWorld attachedAtOrigin = 0 ∧
    (Tick missWorld attachedAtOrigin).calls =
      [Call.UpdateGrapple, Call.AddForce ⟨2, 0, 0⟩] ∧
    FVector.sub attachedAtOrigin.vGrappleLocation missWorld.ActorLocation = ⟨-1, 0, 0⟩ ∧
    FVector.DotProduct ((UpdateGrapple.force missWorld attachedAtOrigin).scale 2)
      (FVector.sub attachedAtOrigin.vGrappleLocation missWorld.ActorLocation) = -2 := by
  have hmag : UpdateGrapple.magnitude missWorld attachedAtOrigin = 0 := by
    norm_num [UpdateGrapple.magnitude_eq_max, missWorld, attachedAtOrigin, constructed,
      APracticeProjectCharacter, rawCharacter, FVector.sub, FVector.DotProduct]
  have hforce : UpdateGrapple.force missWorld attachedAtOrigin = ⟨1, 0, 0⟩ := by
    simp only [UpdateGrapple.force, hmag]
    norm_num [missWorld, attachedAtOrigin, FVector.sub, FVector.GetSafeNormal]
  refine ⟨hmag, ?_, ?_, ?_⟩
  · simp only [Tick, UpdateGrapple, hforce]
    norm_num [attachedAtOrigin, constructed, APracticeProjectCharacter, FVector.scale]
  · norm_num [attachedAtOrigin, missWorld, FVector.sub]
  · rw [hforce]
    norm_num [attachedAtOrigin, missWorld, FVector.sub, FVector.scale, FVector.DotProduct]

/-- C4 at an actor at (1, 0, 0) receding from the origin with velocity (10, 0, 0),
attached to the origin with clamp 1: the magnitude after the `FClamp` step is 10, above
the clamp, and `UpdateGrapple` passes (20, 0, 0) to `AddForce`, of squared length 400,
above the square of twice the clamp. -/
theorem receding_magnitude_exceeds_clamp :
    attachedAtOrigin.magnitudeClamp = 1 ∧
    UpdateGrapple.magnitude recedingWorld attachedAtOrigin = 10 ∧
    ¬ UpdateGrapple.magnitude recedingWorld attachedAtOrigin ≤ attachedAtOrigin.magnitudeClamp ∧
    (UpdateGrapple recedingWorld attachedAtOrigin).calls =
      [Call.UpdateGrapple, Call.AddForce ⟨20, 0, 0⟩] ∧
    FVector.SizeSquared ((UpdateGrapple.force recedingWorld attachedAtOrigin).scale 2) = 400 ∧
    ¬ FVector.SizeSquared ((UpdateGrapple.force recedingWorld attachedAtOrigin).scale 2) ≤
      (2 * attachedAtOrigin.magnitudeClamp) ^ 2 := by
  have hclamp : attachedAtOrigin.magnitudeClamp = 1 := rfl
  have hmag : UpdateGrapple.magnitude recedingWorld attachedAtOrigin = 10 := by
    norm_num [UpdateGrapple.magnitude_eq_max, recedingWorld, missWorld, attachedAtOrigin,
      constructed, APracticeProjectCharacter, rawCharacter, FVector.sub, FVector.DotProduct]
  have hforce : UpdateGrapple.force recedingWorld attachedAtOrigin = ⟨10, 0, 0⟩ := by
    simp only [UpdateGrapple.force, hmag]
    norm_num [recedingWorld, missWorld, attachedAtOrigin, FVector.sub,
      FVector.GetSafeNormal, FVector.scale]
  refine ⟨hclamp, hmag, ?_, ?_, ?_, ?_⟩
  · rw [hmag, hclamp]; norm_num
  · simp only [UpdateGrapple, hforce]
    norm_num [attachedAtOrigin, constructed, APracticeProjectCharacter, FVector.scale]
  · rw [hforce]; norm_num [FVector.scale, FVector.SizeSquared]
  · rw [hforce, hclamp]; norm_num [FVector.scale, FVector.SizeSquared]

end PracticeProject
